import Mathlib

/-!
Shallow embedding of the `bnixon67/onedrive` Go package: the token store
(`readTokenFromFile` / `writeTokenToFile` in utils.go), the authorization flow
(`New` in onedrive.go), the authenticated client method `Get`, the three API
operations (`GetMyDrive`, `ListMyDrives`, `ListRecentFiles`), and the error
decoder (`codeIsError`, `RespError`).  JSON documents are modelled at the
value level (`Json`); `encoding/json` marshalling and unmarshalling of the
repository's struct types is embedded field by field, following the struct
tags in the source.
-/

namespace OneDrive

/-- A JSON value, the shape Go's `encoding/json` package works over. -/
inductive Json where
  | null : Json
  | bool (b : Bool) : Json
  | num (n : Int) : Json
  | str (s : String) : Json
  | arr (xs : List Json) : Json
  | obj (fields : List (String × Json)) : Json

/-- Looking a key up in a JSON object (`none` when the value is not an object
or the key is absent), as Go's decoder matches object keys to struct fields. -/
def Json.get (j : Json) (key : String) : Option Json :=
  match j with
  | .obj fields => fields.lookup key
  | _ => none

/-- Decoding a JSON object field into a Go `string` struct field: an absent
key or a JSON `null` leaves the field at its zero value with no error, a JSON
string sets it, and any other value is an unmarshal type error (the Boolean
records whether an error occurred). -/
def decStr (j : Json) (key : String) : String × Bool :=
  match j.get key with
  | none => ("", false)
  | some .null => ("", false)
  | some (.str s) => (s, false)
  | some _ => ("", true)

/-- Decoding a JSON object field into a Go `int64` struct field, with the same
absent/null/type-error behaviour as `decStr`. -/
def decInt (j : Json) (key : String) : Int × Bool :=
  match j.get key with
  | none => (0, false)
  | some .null => (0, false)
  | some (.num n) => (n, false)
  | some _ => (0, true)

/-- Decoding a JSON object field into a Go pointer-to-struct field (tagged
`omitempty`): an absent key or a JSON `null` leaves the pointer `nil`
(`none`); any other value is decoded by `dec` into a fresh value. -/
def decPtr (dec : Json → α × Bool) (j : Json) (key : String) : Option α × Bool :=
  match j.get key with
  | none => (none, false)
  | some .null => (none, false)
  | some v =>
    let d := dec v
    (some d.1, d.2)

/-- Decoding a JSON object field into an embedded (non-pointer) struct field:
an absent key or `null` leaves the zero value; otherwise `dec` decodes it. -/
def decEmb (dec : Json → α × Bool) (zero : α) (j : Json) (key : String) : α × Bool :=
  match j.get key with
  | none => (zero, false)
  | some .null => (zero, false)
  | some v => dec v

/-- Decoding a JSON object field into a Go slice field: absent or `null`
leaves the empty (nil) slice; an array decodes every element with `dec`; any
other value is a type error. -/
def decList (dec : Json → α × Bool) (j : Json) (key : String) : List α × Bool :=
  match j.get key with
  | none => ([], false)
  | some .null => ([], false)
  | some (.arr xs) =>
    let ys := xs.map dec
    (ys.map Prod.fst, ys.any Prod.snd)
  | some _ => ([], true)

/-- `Identity` from onedrive.go: email, display name and id of an actor. -/
structure Identity where
  eMail : String
  displayName : String
  id : String
deriving DecidableEq

def Identity.zero : Identity := ⟨"", "", ""⟩

/-- Unmarshalling an `Identity` from a JSON value (struct tags `email`,
`displayName`, `id`); a non-object is a type error leaving the zero value. -/
def Identity.dec (v : Json) : Identity × Bool :=
  match v with
  | .obj _ =>
    let e := decStr v "email"
    let d := decStr v "displayName"
    let i := decStr v "id"
    (⟨e.1, d.1, i.1⟩, e.2 || d.2 || i.2)
  | _ => (Identity.zero, true)

/-- `IdentitySet` from onedrive.go: pointers to application, device and user
identities, so that absent members unmarshal to `nil`. -/
structure IdentitySet where
  application : Option Identity
  device : Option Identity
  user : Option Identity
deriving DecidableEq

def IdentitySet.zero : IdentitySet := ⟨none, none, none⟩

/-- Unmarshalling an `IdentitySet` (tags `application`, `device`, `user`). -/
def IdentitySet.dec (v : Json) : IdentitySet × Bool :=
  match v with
  | .obj _ =>
    let a := decPtr Identity.dec v "application"
    let d := decPtr Identity.dec v "device"
    let u := decPtr Identity.dec v "user"
    (⟨a.1, d.1, u.1⟩, a.2 || d.2 || u.2)
  | _ => (IdentitySet.zero, true)

/-- `Quota` from onedrive.go: storage totals in bytes plus a state string. -/
structure Quota where
  total : Int
  used : Int
  remaining : Int
  deleted : Int
  state : String
deriving DecidableEq

def Quota.zero : Quota := ⟨0, 0, 0, 0, ""⟩

/-- Unmarshalling a `Quota` (tags `total`, `used`, `remaining`, `deleted`,
`state`). -/
def Quota.dec (v : Json) : Quota × Bool :=
  match v with
  | .obj _ =>
    let t := decInt v "total"
    let u := decInt v "used"
    let r := decInt v "remaining"
    let d := decInt v "deleted"
    let s := decStr v "state"
    (⟨t.1, u.1, r.1, d.1, s.1⟩, t.2 || u.2 || r.2 || d.2 || s.2)
  | _ => (Quota.zero, true)

/-- `FileSystemInfo` from onedrive.go. -/
structure FileSystemInfo where
  createdDateTime : String
  lastAccessedDateTime : String
  lastModifiedDateTime : String
deriving DecidableEq

def FileSystemInfo.zero : FileSystemInfo := ⟨"", "", ""⟩

/-- Unmarshalling a `FileSystemInfo` (tags `createdDateTime`,
`lastAccessedDateTime`, `lastModifiedDateTime`). -/
def FileSystemInfo.dec (v : Json) : FileSystemInfo × Bool :=
  match v with
  | .obj _ =>
    let c := decStr v "createdDateTime"
    let a := decStr v "lastAccessedDateTime"
    let m := decStr v "lastModifiedDateTime"
    (⟨c.1, a.1, m.1⟩, c.2 || a.2 || m.2)
  | _ => (FileSystemInfo.zero, true)

/-- `ParentReference` from onedrive.go (note the source tag `driveID`). -/
structure ParentReference where
  driveId : String
  driveType : String
  id : String
deriving DecidableEq

def ParentReference.zero : ParentReference := ⟨"", "", ""⟩

/-- Unmarshalling a `ParentReference` (tags `driveID`, `driveType`, `id`). -/
def ParentReference.dec (v : Json) : ParentReference × Bool :=
  match v with
  | .obj _ =>
    let d := decStr v "driveID"
    let t := decStr v "driveType"
    let i := decStr v "id"
    (⟨d.1, t.1, i.1⟩, d.2 || t.2 || i.2)
  | _ => (ParentReference.zero, true)

/-- `Package` from onedrive.go: the package type string. -/
structure Package where
  type : String
deriving DecidableEq

def Package.zero : Package := ⟨""⟩

/-- Unmarshalling a `Package` (tag `type`). -/
def Package.dec (v : Json) : Package × Bool :=
  match v with
  | .obj _ =>
    let t := decStr v "type"
    (⟨t.1⟩, t.2)
  | _ => (Package.zero, true)

/-- `File` from onedrive.go: the MIME type of a file. -/
structure File where
  mimeType : String
deriving DecidableEq

def File.zero : File := ⟨""⟩

/-- Unmarshalling a `File` (tag `mimeType`). -/
def File.dec (v : Json) : File × Bool :=
  match v with
  | .obj _ =>
    let m := decStr v "mimeType"
    (⟨m.1⟩, m.2)
  | _ => (File.zero, true)

/-- `SharepointIds` from onedrive.go. -/
structure SharepointIds where
  listId : String
  listItemId : String
  listItemUniqueId : String
  siteId : String
  siteUrl : String
  webId : String
deriving DecidableEq

def SharepointIds.zero : SharepointIds := ⟨"", "", "", "", "", ""⟩

/-- Unmarshalling a `SharepointIds` (tags `listId`, `listItemId`,
`listItemUniqueId`, `siteId`, `siteUrl`, `webId`). -/
def SharepointIds.dec (v : Json) : SharepointIds × Bool :=
  match v with
  | .obj _ =>
    let a := decStr v "listId"
    let b := decStr v "listItemId"
    let c := decStr v "listItemUniqueId"
    let d := decStr v "siteId"
    let e := decStr v "siteUrl"
    let f := decStr v "webId"
    (⟨a.1, b.1, c.1, d.1, e.1, f.1⟩, a.2 || b.2 || c.2 || d.2 || e.2 || f.2)
  | _ => (SharepointIds.zero, true)

/-- `RemoteItem` from onedrive.go: data of an item shared from another drive. -/
structure RemoteItem where
  createdDateTime : String
  id : String
  lastModifiedDateTime : String
  name : String
  size : Int
  webDavURL : String
  webURL : String
  createdBy : Option IdentitySet
  file : Option File
  fileSystemInfo : FileSystemInfo
  lastModifiedBy : Option IdentitySet
  package : Option Package
  parentReference : ParentReference
  sharepointIds : Option SharepointIds
deriving DecidableEq

def RemoteItem.zero : RemoteItem :=
  ⟨"", "", "", "", 0, "", "", none, none, FileSystemInfo.zero, none, none,
   ParentReference.zero, none⟩

/-- Unmarshalling a `RemoteItem`, following the struct tags in onedrive.go. -/
def RemoteItem.dec (v : Json) : RemoteItem × Bool :=
  match v with
  | .obj _ =>
    let cd := decStr v "createdDateTime"
    let i := decStr v "id"
    let lm := decStr v "lastModifiedDateTime"
    let n := decStr v "name"
    let sz := decInt v "size"
    let wd := decStr v "webDavUrl"
    let wu := decStr v "webUrl"
    let cb := decPtr IdentitySet.dec v "createdBy"
    let f := decPtr File.dec v "file"
    let fsi := decEmb FileSystemInfo.dec FileSystemInfo.zero v "fileSystemInfo"
    let lb := decPtr IdentitySet.dec v "lastModifiedBy"
    let p := decPtr Package.dec v "package"
    let pr := decEmb ParentReference.dec ParentReference.zero v "parentReference"
    let sp := decPtr SharepointIds.dec v "sharepointIds"
    (⟨cd.1, i.1, lm.1, n.1, sz.1, wd.1, wu.1, cb.1, f.1, fsi.1, lb.1, p.1,
      pr.1, sp.1⟩,
     cd.2 || i.2 || lm.2 || n.2 || sz.2 || wd.2 || wu.2 || cb.2 || f.2 ||
     fsi.2 || lb.2 || p.2 || pr.2 || sp.2)
  | _ => (RemoteItem.zero, true)

/-- `DriveItem` from onedrive.go: a file, folder or other item in a drive. -/
structure DriveItem where
  createdDateTime : String
  id : String
  lastModifiedDateTime : String
  name : String
  webURL : String
  size : Int
  createdBy : Option IdentitySet
  lastModifiedBy : Option IdentitySet
  file : Option File
  fileSystemInfo : FileSystemInfo
  remoteItem : RemoteItem
  eTag : String
  parentReference : Option ParentReference
  sharepointIds : Option SharepointIds
deriving DecidableEq

def DriveItem.zero : DriveItem :=
  ⟨"", "", "", "", "", 0, none, none, none, FileSystemInfo.zero,
   RemoteItem.zero, "", none, none⟩

/-- Unmarshalling a `DriveItem`, following the struct tags in onedrive.go. -/
def DriveItem.dec (v : Json) : DriveItem × Bool :=
  match v with
  | .obj _ =>
    let cd := decStr v "createdDateTime"
    let i := decStr v "id"
    let lm := decStr v "lastModifiedDateTime"
    let n := decStr v "name"
    let wu := decStr v "webUrl"
    let sz := decInt v "size"
    let cb := decPtr IdentitySet.dec v "createdBy"
    let lb := decPtr IdentitySet.dec v "lastModifiedBy"
    let f := decPtr File.dec v "file"
    let fsi := decEmb FileSystemInfo.dec FileSystemInfo.zero v "fileSystemInfo"
    let ri := decEmb RemoteItem.dec RemoteItem.zero v "remoteItem"
    let et := decStr v "eTag"
    let pr := decPtr ParentReference.dec v "parentReference"
    let sp := decPtr SharepointIds.dec v "sharepointIds"
    (⟨cd.1, i.1, lm.1, n.1, wu.1, sz.1, cb.1, lb.1, f.1, fsi.1, ri.1, et.1,
      pr.1, sp.1⟩,
     cd.2 || i.2 || lm.2 || n.2 || wu.2 || sz.2 || cb.2 || lb.2 || f.2 ||
     fsi.2 || ri.2 || et.2 || pr.2 || sp.2)
  | _ => (DriveItem.zero, true)

/-- `Drive` from onedrive.go: a logical container of files. -/
structure Drive where
  id : String
  createdBy : Option IdentitySet
  createdDateTime : String
  description : String
  driveType : String
  lastModifiedBy : Option IdentitySet
  lastModifiedDateTime : String
  name : String
  owner : Option IdentitySet
  quota : Option Quota
  webURL : String
deriving DecidableEq

def Drive.zero : Drive :=
  ⟨"", none, "", "", "", none, "", "", none, none, ""⟩

/-- Unmarshalling a `Drive`, following the struct tags in onedrive.go (the
`LastModifiedDateTime` field's tag keeps the source's capital `L`). -/
def Drive.dec (v : Json) : Drive × Bool :=
  match v with
  | .obj _ =>
    let i := decStr v "id"
    let cb := decPtr IdentitySet.dec v "createdBy"
    let cd := decStr v "createdDateTime"
    let ds := decStr v "description"
    let dt := decStr v "driveType"
    let lb := decPtr IdentitySet.dec v "lastModifiedBy"
    let lm := decStr v "LastModifiedDateTime"
    let n := decStr v "name"
    let ow := decPtr IdentitySet.dec v "owner"
    let q := decPtr Quota.dec v "quota"
    let wu := decStr v "webUrl"
    (⟨i.1, cb.1, cd.1, ds.1, dt.1, lb.1, lm.1, n.1, ow.1, q.1, wu.1⟩,
     i.2 || cb.2 || cd.2 || ds.2 || dt.2 || lb.2 || lm.2 || n.2 || ow.2 ||
     q.2 || wu.2)
  | _ => (Drive.zero, true)

/-- `DriveItems` from onedrive.go: the `value` collection of drive items. -/
structure DriveItems where
  value : List DriveItem
deriving DecidableEq

def DriveItems.zero : DriveItems := ⟨[]⟩

/-- Unmarshalling a `DriveItems` (tag `value`). -/
def DriveItems.dec (v : Json) : DriveItems × Bool :=
  match v with
  | .obj _ =>
    let xs := decList DriveItem.dec v "value"
    (⟨xs.1⟩, xs.2)
  | _ => (DriveItems.zero, true)

/-- `Drives` from onedrive.go: the `value` collection of drives. -/
structure Drives where
  value : List Drive
deriving DecidableEq

def Drives.zero : Drives := ⟨[]⟩

/-- Unmarshalling a `Drives` (tag `value`). -/
def Drives.dec (v : Json) : Drives × Bool :=
  match v with
  | .obj _ =>
    let xs := decList Drive.dec v "value"
    (⟨xs.1⟩, xs.2)
  | _ => (Drives.zero, true)

/-- The `oauth2.Token` persisted by the token store: access token, token type,
refresh token, and the expiry timestamp (carried as its RFC3339 rendering,
which is how `time.Time` marshals to JSON). -/
structure Token where
  accessToken : String
  tokenType : String
  refreshToken : String
  expiry : String
deriving DecidableEq

def Token.zero : Token := ⟨"", "", "", ""⟩

/-- JSON marshalling of an `oauth2.Token` (tags `access_token`,
`token_type,omitempty`, `refresh_token,omitempty`, `expiry,omitempty`; the
`omitempty` on the struct-typed expiry has no effect, so `expiry` is always
emitted). -/
def encodeToken (t : Token) : Json :=
  Json.obj
    ([("access_token", Json.str t.accessToken)]
      ++ (if t.tokenType = "" then [] else [("token_type", Json.str t.tokenType)])
      ++ (if t.refreshToken = "" then [] else
            [("refresh_token", Json.str t.refreshToken)])
      ++ [("expiry", Json.str t.expiry)])

/-- Unmarshalling an `oauth2.Token` from a JSON value; a non-object is a type
error leaving the zero token, as `json.Decoder.Decode` leaves the pointee. -/
def Token.dec (v : Json) : Token × Bool :=
  match v with
  | .obj _ =>
    let a := decStr v "access_token"
    let ty := decStr v "token_type"
    let r := decStr v "refresh_token"
    let e := decStr v "expiry"
    (⟨a.1, ty.1, r.1, e.1⟩, a.2 || ty.2 || r.2 || e.2)
  | _ => (Token.zero, true)

/-- The bytes stored in a file, abstracted to their JSON parse: either a
well-formed JSON document or malformed text on which the decoder fails
leaving the target at its zero value. -/
inductive FileData where
  | malformed : FileData
  | json (j : Json) : FileData

/-- The local file system: an association of paths to file contents; an
absent path is a file that does not exist (so `os.Open` fails). -/
def FileSys := List (String × FileData)

def FileSys.lookup (fs : FileSys) (path : String) : Option FileData :=
  List.lookup path fs

/-- Writing a file: creates or truncates the file at `path`, so a later
lookup sees the new data. -/
def FileSys.set (fs : FileSys) (path : String) (d : FileData) : FileSys :=
  (path, d) :: fs

/-- The two failure classes of `readTokenFromFile`: the open error when the
file does not exist or cannot be opened, and the JSON decode error. -/
inductive ReadErr where
  | notFound
  | decodeError
deriving DecidableEq

/-- `readTokenFromFile` from utils.go: opens the file (open failure returns
`nil` and the error); otherwise allocates a zero `oauth2.Token`, decodes the
file's JSON into it, and returns the (always non-nil) token pointer together
with the decode result. -/
def readTokenFromFile (fs : FileSys) (filename : String) :
    Option Token × Option ReadErr :=
  match fs.lookup filename with
  | none => (none, some .notFound)
  | some .malformed => (some Token.zero, some .decodeError)
  | some (.json j) =>
    let d := Token.dec j
    (some d.1, if d.2 then some .decodeError else none)

/-- Failure switches of the file system on one write: whether `os.Create`
fails and whether writing the encoded bytes fails. -/
structure FsEnv where
  createFails : Bool
  writeFails : Bool
deriving DecidableEq

/-- Outcome of `writeTokenToFile`: `log.Fatal` terminates the process, or the
function returns with the updated file system. -/
inductive WriteOutcome where
  | fatal : WriteOutcome
  | done (fs : FileSys) : WriteOutcome

/-- `writeTokenToFile` from utils.go: `os.Create` makes or truncates the
file, and a create failure is `log.Fatal`; then
`json.NewEncoder(file).Encode(token)` writes the encoded token, and its error
is discarded, so a write failure still returns normally (leaving the
truncated file malformed). -/
def writeTokenToFile (env : FsEnv) (fs : FileSys) (fileName : String)
    (token : Token) : WriteOutcome :=
  if env.createFails then .fatal
  else if env.writeFails then .done (fs.set fileName .malformed)
  else .done (fs.set fileName (.json (encodeToken token)))

/-- `InnerError` from the repository's error decoder. -/
structure InnerError where
  requestId : String
  date : String
deriving DecidableEq

/-- `Err` from the repository's error decoder. -/
structure Err where
  code : String
  message : String
  innerError : Option InnerError
deriving DecidableEq

/-- `RespError` from the repository's error decoder: the typed Response
Error. -/
structure RespError where
  err : Option Err
deriving DecidableEq

/-- The error-code list of `codeIsError`, from the repository's error
decoder. -/
def errorCodes : List Int :=
  [400, 401, 403, 404, 405, 406, 409, 410, 411, 412, 413, 415, 416, 422, 423,
   429, 500, 501, 503, 504, 507, 509]

/-- `codeIsError`: the loop over `errorCodes` returning `true` on a match. -/
def codeIsError (code : Int) : Bool :=
  errorCodes.any (fun n => code == n)

/-- An HTTP response body: the raw bytes (as the string the source prints)
together with their JSON parse (`none` when the bytes are malformed JSON). -/
structure Body where
  raw : String
  parsed : Option Json

/-- One HTTP response: its status code, whether reading the body with
`ioutil.ReadAll` fails, and the body. -/
structure HttpResponse where
  statusCode : Int
  readFails : Bool
  body : Body

/-- What the network does for a GET of a URL: a transport (connection) error,
or a response. -/
inductive Transport where
  | connErr : Transport
  | resp (r : HttpResponse) : Transport

/-- The HTTP environment seen through the authenticated `http.Client`: the
response each URL gets. -/
def HttpEnv := String → Transport

/-- The error cases of the client method `Get`: the transport error from
`httpClient.Get`, or the read error from `ioutil.ReadAll` (the partially
read bytes it also returns are dropped here, as every caller returns early
on a non-nil error). -/
inductive GetErr where
  | transport
  | readBody
deriving DecidableEq

/-- The client method `Get` from onedrive.go (lines 243-256): issues the GET,
fails on a transport error, reads the whole body, fails on a read error, and
otherwise returns the body bytes — the status code is never inspected. -/
def OneDriveClient.Get (env : HttpEnv) (url : String) : Except GetErr Body :=
  match env url with
  | .connErr => .error .transport
  | .resp r => if r.readFails then .error .readBody else .ok r.body

/-- An error surfaced by an API operation: an error from `Get`, or a
`json.Unmarshal` failure. -/
inductive ApiErr where
  | get (e : GetErr)
  | decode
deriving DecidableEq

/-- Observable effects of one API operation: the HTTP fetch, a print to
standard output, and the attempt to unmarshal the body. -/
inductive ApiEvent where
  | httpGet (url : String)
  | print (s : String)
  | unmarshal
deriving DecidableEq

def driveURL : String := "https://graph.microsoft.com/v1.0/me/drive"

def drivesURL : String := "https://graph.microsoft.com/v1.0/me/drives"

def recentURL : String := "https://graph.microsoft.com/v1.0/me/drive/recent"

/-- `json.Unmarshal` of a body into a `Drive`: malformed bytes are a decode
error leaving the zero value. -/
def unmarshalDrive (b : Body) : Drive × Bool :=
  match b.parsed with
  | none => (Drive.zero, true)
  | some j => Drive.dec j

/-- `json.Unmarshal` of a body into a `Drives`. -/
def unmarshalDrives (b : Body) : Drives × Bool :=
  match b.parsed with
  | none => (Drives.zero, true)
  | some j => Drives.dec j

/-- `json.Unmarshal` of a body into a `DriveItems`. -/
def unmarshalDriveItems (b : Body) : DriveItems × Bool :=
  match b.parsed with
  | none => (DriveItems.zero, true)
  | some j => DriveItems.dec j

/-- `GetMyDrive` from onedrive.go: `Get` on the fixed `/me/drive` URL, early
return of the zero `Drive` on a `Get` error, then `json.Unmarshal` into the
result; the event list records the observable effects in order. -/
def GetMyDrive (env : HttpEnv) : (Drive × Option ApiErr) × List ApiEvent :=
  match OneDriveClient.Get env driveURL with
  | .error e => ((Drive.zero, some (.get e)), [.httpGet driveURL])
  | .ok body =>
    let d := unmarshalDrive body
    ((d.1, if d.2 then some .decode else none),
     [.httpGet driveURL, .unmarshal])

/-- `ListMyDrives` from onedrive.go: `Get` on the fixed `/me/drives` URL and
`json.Unmarshal` into `Drives`. -/
def ListMyDrives (env : HttpEnv) : (Drives × Option ApiErr) × List ApiEvent :=
  match OneDriveClient.Get env drivesURL with
  | .error e => ((Drives.zero, some (.get e)), [.httpGet drivesURL])
  | .ok body =>
    let d := unmarshalDrives body
    ((d.1, if d.2 then some .decode else none),
     [.httpGet drivesURL, .unmarshal])

/-- `ListRecentFiles` from onedrive.go: `Get` on the fixed `/me/drive/recent`
URL, then `fmt.Println(string(body))` — the one print among the three API
operations — and only then `json.Unmarshal` into `DriveItems`. -/
def ListRecentFiles (env : HttpEnv) :
    (DriveItems × Option ApiErr) × List ApiEvent :=
  match OneDriveClient.Get env recentURL with
  | .error e => ((DriveItems.zero, some (.get e)), [.httpGet recentURL])
  | .ok body =>
    let d := unmarshalDriveItems body
    ((d.1, if d.2 then some .decode else none),
     [.httpGet recentURL, .print body.raw, .unmarshal])

/-- The line typed on standard input during the authorization flow, seen
through its processing in `New`: the read itself can fail, `url.Parse` of the
trimmed line can fail, or the line parses to a URL whose query string is the
given key-value list. -/
inductive InputLine where
  | readError : InputLine
  | unparsable : InputLine
  | parsed (query : List (String × String)) : InputLine

/-- `url.Values.Get`: the first value for the key, or `""` when absent. -/
def queryGet (q : List (String × String)) (key : String) : String :=
  match q.lookup key with
  | some v => v
  | none => ""

/-- The environment of one run of `New`: the file system, the random state
string produced by `randomBytesBase64 32`, the standard-input line, the
outcome `conf.Exchange` would give for each authorization code, and the file
system's failure switches for the token write. -/
structure Env where
  fs : FileSys
  state : String
  input : InputLine
  exchange : String → Option Token
  fsEnv : FsEnv

/-- Observable steps of the authorization flow in `New`: printing the
prompt and authorization URL, the blocking read of standard input, the
code-for-token exchange, and persisting the token to the token file. -/
inductive Event where
  | printAuthPrompt : Event
  | readStdin : Event
  | exchange (code : String) : Event
  | saveToken (path : String) (t : Token) : Event
deriving DecidableEq

/-- Outcome of `New`: `log.Fatal` terminated the process, or the client was
built around a token, with the file system as the run left it. -/
inductive NewOutcome where
  | fatal : NewOutcome
  | client (t : Token) (fs : FileSys) : NewOutcome

/-- `New` from onedrive.go (lines 308-377): reads the token file, keeping
only the token pointer (the error is discarded); when the pointer is non-nil
the interactive flow is skipped entirely and the client is built from that
token.  Otherwise the flow prints the prompt, blocks on standard input
(read failure is fatal), parses the response URL (parse failure is fatal),
compares the `state` query parameter with the generated state (mismatch is
fatal), exchanges the `code` query parameter for a token (failure is fatal),
saves the token via `writeTokenToFile`, and builds the client. -/
def New (env : Env) (tokenFileName : String) : NewOutcome × List Event :=
  match (readTokenFromFile env.fs tokenFileName).1 with
  | some token => (.client token env.fs, [])
  | none =>
    match env.input with
    | .readError => (.fatal, [.printAuthPrompt, .readStdin])
    | .unparsable => (.fatal, [.printAuthPrompt, .readStdin])
    | .parsed q =>
      if queryGet q "state" ≠ env.state then
        (.fatal, [.printAuthPrompt, .readStdin])
      else
        match env.exchange (queryGet q "code") with
        | none =>
          (.fatal, [.printAuthPrompt, .readStdin,
                    .exchange (queryGet q "code")])
        | some token =>
          match writeTokenToFile env.fsEnv env.fs tokenFileName token with
          | .fatal =>
            (.fatal, [.printAuthPrompt, .readStdin,
                      .exchange (queryGet q "code")])
          | .done fsNew =>
            (.client token fsNew,
             [.printAuthPrompt, .readStdin, .exchange (queryGet q "code"),
              .saveToken tokenFileName token])

/-- Decoding an encoded token recovers the token exactly, with no decode
error: the `omitempty` keys are omitted exactly when the corresponding field
is the zero string, which is what an absent key decodes back to. -/
theorem token_dec_encode (t : Token) : Token.dec (encodeToken t) = (t, false) := by
  rcases t with ⟨a, ty, r, e⟩
  by_cases hty : ty = "" <;> by_cases hr : r = "" <;>
    simp [Token.dec, encodeToken, decStr, Json.get, List.lookup, hty, hr]

/-- Looking up a path right after setting it yields the new data. -/
theorem fileSys_lookup_set (fs : FileSys) (path : String) (d : FileData) :
    (fs.set path d).lookup path = some d := by
  simp [FileSys.set, FileSys.lookup, List.lookup]

/-- C3, counterexample: when file creation succeeds but the write of the
encoded token fails, `writeTokenToFile` does not terminate the process — the
`Encode` error is discarded and the call returns normally — contradicting the
claim that either failure is fatal. -/
theorem c3_counterexample :
    writeTokenToFile ⟨false, true⟩ [] "token.json" Token.zero
        = .done [("token.json", FileData.malformed)]
      ∧ writeTokenToFile ⟨false, true⟩ [] "token.json" Token.zero
        ≠ .fatal := by
  refine ⟨rfl, ?_⟩
  intro h
  simp [writeTokenToFile, FileSys.set] at h

/-- C3, amended: `writeTokenToFile` creates or truncates the file at the
path and writes the JSON-encoded token to it; it fails fatally when (and
only when) the file creation fails, while a failure of the write of the
encoded token is ignored and the call returns normally. -/
theorem c3_save_behaviour (env : FsEnv) (fs : FileSys) (path : String)
    (t : Token) :
    (env.createFails = true → writeTokenToFile env fs path t = .fatal)
    ∧ (env.createFails = false → env.writeFails = false →
        writeTokenToFile env fs path t
          = .done (fs.set path (.json (encodeToken t))))
    ∧ (env.createFails = false → env.writeFails = true →
        writeTokenToFile env fs path t = .done (fs.set path .malformed)) := by
  refine ⟨fun hc => ?_, fun hc hw => ?_, fun hc hw => ?_⟩
  · simp [writeTokenToFile, hc]
  · simp [writeTokenToFile, hc, hw]
  · simp [writeTokenToFile, hc, hw]

/-- C3, witness for the amended theorem: with a failing create, the write is
fatal; with a clean environment, the encoded token lands in the file. -/
theorem c3_witness :
    writeTokenToFile ⟨true, false⟩ [] "token.json" Token.zero = .fatal
    ∧ writeTokenToFile ⟨false, false⟩ [] "token.json" Token.zero
        = .done (FileSys.set [] "token.json" (.json (encodeToken Token.zero))) :=
  ⟨(c3_save_behaviour ⟨true, false⟩ [] "token.json" Token.zero).1 rfl,
   (c3_save_behaviour ⟨false, false⟩ [] "token.json" Token.zero).2.1 rfl rfl⟩

/-- C6: `readTokenFromFile` returns no token and the open error when the
file does not exist; it returns a decode error when the contents are
malformed JSON or are JSON that does not fit the token shape; and otherwise
it returns the decoded token with no error. -/
theorem c6_load_cases (fs : FileSys) (path : String) :
    (fs.lookup path = none →
      readTokenFromFile fs path = (none, some .notFound))
    ∧ (fs.lookup path = some .malformed →
      readTokenFromFile fs path = (some Token.zero, some .decodeError))
    ∧ (∀ j, fs.lookup path = some (.json j) → (Token.dec j).2 = true →
      readTokenFromFile fs path = (some (Token.dec j).1, some .decodeError))
    ∧ (∀ j, fs.lookup path = some (.json j) → (Token.dec j).2 = false →
      readTokenFromFile fs path = (some (Token.dec j).1, none)) := by
  refine ⟨fun h => ?_, fun h => ?_, fun j h hd => ?_, fun j h hd => ?_⟩
  · simp [readTokenFromFile, h]
  · simp [readTokenFromFile, h]
  · simp [readTokenFromFile, h, hd]
  · simp [readTokenFromFile, h, hd]

/-- C6, witness: a missing file is `NotFound` with no token; a malformed
file is a decode error; a boolean where a string belongs is a decode error;
a well-formed token file decodes cleanly. -/
theorem c6_witness :
    readTokenFromFile [] ".token.json" = (none, some .notFound)
    ∧ readTokenFromFile [(".token.json", .malformed)] ".token.json"
        = (some Token.zero, some .decodeError)
    ∧ readTokenFromFile
        [(".token.json", .json (.obj [("access_token", .bool true)]))]
        ".token.json"
        = (some Token.zero, some .decodeError)
    ∧ readTokenFromFile
        [(".token.json", .json (.obj [("access_token", .str "tok")]))]
        ".token.json"
        = (some ⟨"tok", "", "", ""⟩, none) :=
  ⟨(c6_load_cases [] ".token.json").1 rfl,
   (c6_load_cases [(".token.json", .malformed)] ".token.json").2.1 rfl,
   (c6_load_cases [(".token.json", .json (.obj [("access_token", .bool true)]))]
      ".token.json").2.2.1 _ rfl rfl,
   (c6_load_cases [(".token.json", .json (.obj [("access_token", .str "tok")]))]
      ".token.json").2.2.2 _ rfl rfl⟩

/-- C7: saving a token with `writeTokenToFile` (with the file system
cooperating, cf. C3) and loading it back from the same path with
`readTokenFromFile` yields the same token, field for field, with no error. -/
theorem c7_save_load_roundtrip (fs fsNew : FileSys) (path : String) (t : Token)
    (hsave : writeTokenToFile ⟨false, false⟩ fs path t = .done fsNew) :
    readTokenFromFile fsNew path = (some t, none) := by
  have hfs : fsNew = fs.set path (.json (encodeToken t)) := by
    simpa [writeTokenToFile] using hsave.symm
  subst hfs
  simp [readTokenFromFile, fileSys_lookup_set, token_dec_encode]

/-- C7, witness: a concrete token with every field populated round-trips
through the token file. -/
theorem c7_witness :
    readTokenFromFile
      (FileSys.set [] ".token.json"
        (.json (encodeToken ⟨"acc", "Bearer", "ref", "2024-01-01T00:00:00Z"⟩)))
      ".token.json"
      = (some ⟨"acc", "Bearer", "ref", "2024-01-01T00:00:00Z"⟩, none) :=
  c7_save_load_roundtrip [] _ ".token.json"
    ⟨"acc", "Bearer", "ref", "2024-01-01T00:00:00Z"⟩ rfl

/-- C2: when the token file exists and can be opened but decoding it fails,
`readTokenFromFile` returns a non-nil token pointer together with the decode
error, and `New` — which discards the error and tests only the pointer —
skips the interactive flow entirely (empty event trace) and builds the
client from that token; when the contents are malformed JSON the token is
the zero value. -/
theorem c2_bad_token_file_skips_flow (env : Env) (path : String)
    (d : FileData) (hfile : env.fs.lookup path = some d)
    (herr : (readTokenFromFile env.fs path).2 = some .decodeError) :
    (∃ t, readTokenFromFile env.fs path = (some t, some .decodeError)
        ∧ New env path = (.client t env.fs, []))
    ∧ (d = .malformed →
        readTokenFromFile env.fs path = (some Token.zero, some .decodeError)
        ∧ New env path = (.client Token.zero env.fs, [])) := by
  rcases d with _ | j
  · refine ⟨⟨Token.zero, ?_, ?_⟩, fun _ => ⟨?_, ?_⟩⟩ <;>
      simp [readTokenFromFile, New, hfile]
  · refine ⟨⟨(Token.dec j).1, ?_, ?_⟩, fun hmal => by simp at hmal⟩
    · rcases hd : (Token.dec j).2 with _ | _
      · simp [readTokenFromFile, hfile, hd] at herr
      · simp [readTokenFromFile, hfile, hd]
    · simp [New, readTokenFromFile, hfile]

/-- C2, witness: a token file holding malformed JSON makes `New` skip the
flow and build the client from the zero-valued token. -/
theorem c2_witness :
    readTokenFromFile [(".token.json", FileData.malformed)] ".token.json"
      = (some Token.zero, some .decodeError)
    ∧ New
        ⟨[(".token.json", FileData.malformed)], "s", .readError,
         fun _ => none, ⟨false, false⟩⟩ ".token.json"
      = (.client Token.zero [(".token.json", FileData.malformed)], []) :=
  (c2_bad_token_file_skips_flow
    ⟨[(".token.json", FileData.malformed)], "s", .readError,
     fun _ => none, ⟨false, false⟩⟩ ".token.json" .malformed rfl rfl).2 rfl

/-- C4: with the interactive flow entered (no token from the file) and the
callback line parsed to a URL with query `q`, the flow is fatal with no
retry — and no code exchange — whenever the `state` query parameter differs
from the generated state, and only when they are exactly equal does the flow
proceed to the exchange of the `code` query parameter. -/
theorem c4_csrf_state_check (env : Env) (path : String)
    (q : List (String × String))
    (hload : (readTokenFromFile env.fs path).1 = none)
    (hinput : env.input = .parsed q) :
    (queryGet q "state" ≠ env.state →
      New env path = (.fatal, [.printAuthPrompt, .readStdin]))
    ∧ (queryGet q "state" = env.state →
      Event.exchange (queryGet q "code") ∈ (New env path).2)
    ∧ (Event.exchange (queryGet q "code") ∈ (New env path).2 →
      queryGet q "state" = env.state) := by
  constructor
  · intro hne
    simp only [New, hload, hinput, if_pos hne]
  · constructor
    · intro heq
      simp only [New, hload, hinput]
      cases hx : env.exchange (queryGet q "code") with
      | none => simp [heq, hx]
      | some t =>
        cases hw : writeTokenToFile env.fsEnv env.fs path t with
        | fatal => simp [heq, hx, hw]
        | done fsNew => simp [heq, hx, hw]
    · intro hmem
      by_contra hne
      simp only [New, hload, hinput, if_pos hne] at hmem
      simp at hmem

/-- C4, witness: with a matching state the flow reaches the exchange of the
code; the returned state is compared byte-for-byte against the generated
one. -/
theorem c4_witness :
    Event.exchange "authcode"
      ∈ (New
          ⟨[], "gen-state", .parsed [("state", "gen-state"), ("code", "authcode")],
           fun _ => some Token.zero, ⟨false, false⟩⟩ ".token.json").2 :=
  (c4_csrf_state_check
    ⟨[], "gen-state", .parsed [("state", "gen-state"), ("code", "authcode")],
     fun _ => some Token.zero, ⟨false, false⟩⟩ ".token.json"
    [("state", "gen-state"), ("code", "authcode")] rfl rfl).2.1 rfl

/-- C5: whenever a stored token is loaded from the token file with no error,
`New` runs no interactive flow at all — its event trace is empty, so no
prompt is printed, nothing is read from standard input, no exchange happens
and no token file is written — and the client holds the loaded token; and in
every run whatsoever the flow's prompt appears at most once in the trace. -/
theorem c5_valid_token_skips_flow (env : Env) (path : String) :
    (∀ t, readTokenFromFile env.fs path = (some t, none) →
      New env path = (.client t env.fs, []))
    ∧ (New env path).2.count Event.printAuthPrompt ≤ 1 := by
  constructor
  · intro t hload
    simp only [New, hload]
  · simp only [New]
    cases hload : (readTokenFromFile env.fs path).1 with
    | some t => simp
    | none =>
      cases hin : env.input with
      | readError => simp
      | unparsable => simp
      | parsed q =>
        by_cases hst : queryGet q "state" = env.state
        · cases hx : env.exchange (queryGet q "code") with
          | none => simp [hst, hx, List.count_cons]
          | some t =>
            cases hw : writeTokenToFile env.fsEnv env.fs path t with
            | fatal => simp [hst, hx, hw, List.count_cons]
            | done fsNew => simp [hst, hx, hw, List.count_cons]
        · simp [hst, List.count_cons]

/-- C5, witness: a well-formed token file is loaded and the whole
interactive flow is skipped. -/
theorem c5_witness :
    New
      ⟨[(".token.json", .json (.obj [("access_token", .str "tok")]))], "s",
       .readError, fun _ => none, ⟨false, false⟩⟩ ".token.json"
      = (.client ⟨"tok", "", "", ""⟩
          [(".token.json", .json (.obj [("access_token", .str "tok")]))], []) :=
  (c5_valid_token_skips_flow
    ⟨[(".token.json", .json (.obj [("access_token", .str "tok")]))], "s",
     .readError, fun _ => none, ⟨false, false⟩⟩ ".token.json").1
    ⟨"tok", "", "", ""⟩ rfl

/-- C9: in every run of `New`, a code-for-token exchange happens only when
the callback line parsed and its `state` query parameter equals the
generated state, and the exchanged code is the callback's `code` parameter;
and a token is persisted to the token file only in the run whose trace is
exactly prompt, stdin read, successful exchange, save — so the exchange
strictly precedes the save and no save follows a failed exchange. -/
theorem c9_exchange_after_csrf_save_after_exchange (env : Env)
    (path : String) :
    (∀ c, Event.exchange c ∈ (New env path).2 →
      ∃ q, env.input = .parsed q ∧ queryGet q "state" = env.state
        ∧ c = queryGet q "code")
    ∧ (∀ t, Event.saveToken path t ∈ (New env path).2 →
      ∃ c, (New env path).2
          = [.printAuthPrompt, .readStdin, .exchange c, .saveToken path t]
        ∧ env.exchange c = some t
        ∧ Event.exchange c ∈ (New env path).2) := by
  have hsplit :
      (New env path).2 = []
      ∨ (New env path).2 = [.printAuthPrompt, .readStdin]
      ∨ (∃ q, env.input = .parsed q ∧ queryGet q "state" = env.state
          ∧ ((New env path).2
              = [.printAuthPrompt, .readStdin,
                 .exchange (queryGet q "code")]
            ∨ (∃ t, env.exchange (queryGet q "code") = some t
                ∧ (New env path).2
                  = [.printAuthPrompt, .readStdin,
                     .exchange (queryGet q "code"),
                     .saveToken path t]))) := by
    simp only [New]
    cases hload : (readTokenFromFile env.fs path).1 with
    | some t => simp
    | none =>
      cases hin : env.input with
      | readError => simp
      | unparsable => simp
      | parsed q =>
        by_cases hst : queryGet q "state" = env.state
        · cases hx : env.exchange (queryGet q "code") with
          | none =>
            refine Or.inr (Or.inr ⟨q, rfl, hst, Or.inl ?_⟩)
            simp [hst, hx]
          | some t =>
            cases hw : writeTokenToFile env.fsEnv env.fs path t with
            | fatal =>
              refine Or.inr (Or.inr ⟨q, rfl, hst, Or.inl ?_⟩)
              simp [hst, hx, hw]
            | done fsNew =>
              refine Or.inr (Or.inr ⟨q, rfl, hst, Or.inr ⟨t, hx, ?_⟩⟩)
              simp [hst, hx, hw]
        · simp [hst]
  constructor
  · intro c hmem
    rcases hsplit with h | h | ⟨q, hin, hst, h | ⟨t, hx, h⟩⟩ <;>
      rw [h] at hmem <;> simp at hmem
    · exact ⟨q, hin, hst, hmem⟩
    · exact ⟨q, hin, hst, hmem⟩
  · intro t hmem
    rcases hsplit with h | h | ⟨q, hin, hst, h | ⟨t2, hx, h⟩⟩ <;>
      rw [h] at hmem <;> simp at hmem
    rcases hmem with ⟨rfl⟩
    exact ⟨queryGet q "code", by rw [h], hx, by rw [h]; simp⟩

/-- C9, witness: in a run that saves a token, the trace is exactly prompt,
read, exchange, save, with the exchange returning the saved token. -/
theorem c9_witness :
    ∃ c,
      (New
        ⟨[], "st", .parsed [("state", "st"), ("code", "cd")],
         fun _ => some ⟨"acc", "", "", ""⟩, ⟨false, false⟩⟩ ".token.json").2
        = [.printAuthPrompt, .readStdin, .exchange c,
           .saveToken ".token.json" ⟨"acc", "", "", ""⟩]
      ∧ (fun _ => some (⟨"acc", "", "", ""⟩ : Token)) c
          = some ⟨"acc", "", "", ""⟩
      ∧ Event.exchange c
        ∈ (New
            ⟨[], "st", .parsed [("state", "st"), ("code", "cd")],
             fun _ => some ⟨"acc", "", "", ""⟩, ⟨false, false⟩⟩
            ".token.json").2 :=
  (c9_exchange_after_csrf_save_after_exchange
    ⟨[], "st", .parsed [("state", "st"), ("code", "cd")],
     fun _ => some ⟨"acc", "", "", ""⟩, ⟨false, false⟩⟩ ".token.json").2
    ⟨"acc", "", "", ""⟩ (by simp [New, readTokenFromFile, FileSys.lookup,
      queryGet, writeTokenToFile, List.lookup])

/-- C1, counterexample: on a response with status 400 — a code in the
error-code set recognized by `codeIsError` — the client method `Get` still
returns the raw body bytes, not a typed Response Error: the method never
inspects the status code, and `codeIsError` is consulted only by the
repository's other, function-style implementation. -/
theorem c1_counterexample :
    OneDriveClient.Get
        (fun _ => .resp ⟨400, false, ⟨"error body", none⟩⟩) driveURL
      = .ok ⟨"error body", none⟩
    ∧ codeIsError 400 = true := by
  exact ⟨rfl, by decide⟩

/-- C1, amended: the client method `Get` ignores the status code entirely:
for every response whose body is read in full it returns the full body bytes
unchanged, whether or not the status code is in the error-code set of
`codeIsError`. -/
theorem c1_get_ignores_status (env : HttpEnv) (url : String)
    (r : HttpResponse) (henv : env url = .resp r)
    (hread : r.readFails = false) :
    OneDriveClient.Get env url = .ok r.body := by
  simp [OneDriveClient.Get, henv, hread]

/-- C1, witness for the amended theorem: a status-503 response (also in the
error set) comes back as its raw bytes. -/
theorem c1_witness :
    OneDriveClient.Get
        (fun _ => .resp ⟨503, false, ⟨"retry later", none⟩⟩) drivesURL
      = .ok ⟨"retry later", none⟩ :=
  c1_get_ignores_status (fun _ => .resp ⟨503, false, ⟨"retry later", none⟩⟩)
    drivesURL ⟨503, false, ⟨"retry later", none⟩⟩ rfl rfl

/-- `Drive.dec` reads the `id`, `driveType` and `quota` fields of the
document whenever it succeeds (a successful decode forces the document to be
an object). -/
theorem drive_dec_fields (j : Json) (hd : (Drive.dec j).2 = false) :
    (Drive.dec j).1.id = (decStr j "id").1
    ∧ (Drive.dec j).1.driveType = (decStr j "driveType").1
    ∧ (Drive.dec j).1.quota = (decPtr Quota.dec j "quota").1 := by
  cases j with
  | obj fields => exact ⟨rfl, rfl, rfl⟩
  | null => simp [Drive.dec] at hd
  | bool b => simp [Drive.dec] at hd
  | num n => simp [Drive.dec] at hd
  | str s => simp [Drive.dec] at hd
  | arr xs => simp [Drive.dec] at hd

/-- C8: when the `/me/drive` fetch succeeds, `GetMyDrive` unmarshals the
body: a well-formed document that decodes without error yields exactly the
decoded `Drive` — whose `id`, `driveType` and `quota` are the document's
corresponding values, unknown keys being ignored and absent ones left at
their zero values by the decoder — and a malformed body yields the zero
`Drive` with a decode error. -/
theorem c8_getMyDrive_decodes (env : HttpEnv) (sc : Int) (b : Body)
    (henv : env driveURL = .resp ⟨sc, false, b⟩) :
    (∀ j, b.parsed = some j → (Drive.dec j).2 = false →
      (GetMyDrive env).1 = ((Drive.dec j).1, none)
      ∧ (Drive.dec j).1.id = (decStr j "id").1
      ∧ (Drive.dec j).1.driveType = (decStr j "driveType").1
      ∧ (Drive.dec j).1.quota = (decPtr Quota.dec j "quota").1)
    ∧ (b.parsed = none →
      (GetMyDrive env).1 = (Drive.zero, some .decode)) := by
  constructor
  · intro j hp hd
    refine ⟨?_, drive_dec_fields j hd⟩
    simp [GetMyDrive, OneDriveClient.Get, henv, unmarshalDrive, hp, hd]
  · intro hp
    simp [GetMyDrive, OneDriveClient.Get, henv, unmarshalDrive, hp]

/-- C8, witness: a fixture document for `/me/drive` with an id, a drive type
and a quota decodes to the matching `Drive`, and a malformed fixture gives
the decode error. -/
theorem c8_witness :
    (GetMyDrive (fun _ => .resp ⟨200, false,
        ⟨"fixture",
         some (.obj
           [("id", .str "drive1"), ("driveType", .str "personal"),
            ("quota", .obj [("total", .num 100), ("used", .num 25)]),
            ("unknownField", .num 7)])⟩⟩)).1
      = ((Drive.dec (.obj
           [("id", .str "drive1"), ("driveType", .str "personal"),
            ("quota", .obj [("total", .num 100), ("used", .num 25)]),
            ("unknownField", .num 7)])).1, none)
    ∧ (GetMyDrive (fun _ => .resp ⟨200, false, ⟨"not json", none⟩⟩)).1
      = (Drive.zero, some .decode) :=
  ⟨((c8_getMyDrive_decodes (fun _ => .resp ⟨200, false,
      ⟨"fixture",
       some (.obj
         [("id", .str "drive1"), ("driveType", .str "personal"),
          ("quota", .obj [("total", .num 100), ("used", .num 25)]),
          ("unknownField", .num 7)])⟩⟩) 200 _ rfl).1 _ rfl (by decide)).1,
   (c8_getMyDrive_decodes (fun _ => .resp ⟨200, false, ⟨"not json", none⟩⟩)
      200 _ rfl).2 rfl⟩

/-- C10: on every successful fetch, `ListRecentFiles` prints the full raw
response body to standard output after the fetch and before the unmarshal is
attempted, and its returned value and error are exactly those of the plain
unmarshal — unaffected by the print; neither `GetMyDrive` nor `ListMyDrives`
ever emits a print event. -/
theorem c10_recent_prints_body (env : HttpEnv) (sc : Int) (b : Body)
    (henv : env recentURL = .resp ⟨sc, false, b⟩) :
    (ListRecentFiles env).2
      = [.httpGet recentURL, .print b.raw, .unmarshal]
    ∧ (ListRecentFiles env).1
      = ((unmarshalDriveItems b).1,
         if (unmarshalDriveItems b).2 then some .decode else none)
    ∧ (∀ envB : HttpEnv, ∀ s : String,
        ApiEvent.print s ∉ (GetMyDrive envB).2
        ∧ ApiEvent.print s ∉ (ListMyDrives envB).2) := by
  refine ⟨?_, ?_, ?_⟩
  · simp [ListRecentFiles, OneDriveClient.Get, henv]
  · simp [ListRecentFiles, OneDriveClient.Get, henv]
  · intro envB s
    constructor
    · cases hx : OneDriveClient.Get envB driveURL with
      | error e => simp [GetMyDrive, hx]
      | ok body => simp [GetMyDrive, hx]
    · cases hx : OneDriveClient.Get envB drivesURL with
      | error e => simp [ListMyDrives, hx]
      | ok body => simp [ListMyDrives, hx]

/-- C10, witness: a concrete recent-files response is printed raw between
the fetch and the unmarshal. -/
theorem c10_witness :
    (ListRecentFiles (fun _ => .resp ⟨200, false,
        ⟨"recent raw", some (.obj [("value", .arr [])])⟩⟩)).2
      = [.httpGet recentURL, .print "recent raw", .unmarshal] :=
  (c10_recent_prints_body (fun _ => .resp ⟨200, false,
      ⟨"recent raw", some (.obj [("value", .arr [])])⟩⟩) 200 _ rfl).1

end OneDrive
